import Mathlib

/-!
Shallow embedding of the `AutoRestarter` process supervisor defined in
`src/dados/src/utils/youtube_v2.js`.

The mutable fields of the supervisor (`restartCount`, `lastRestart`,
`isShuttingDown`) together with its construction-time configuration
(`maxRestarts`, `restartCooldown`, `criticalErrors`) form the state.
Each `async` method of the class becomes a function from the state,
plus the ambient inputs the method reads (`Date.now()`, the current
calendar day used by `toDateString()`, error data, memory readings,
file-system outcomes), to a `StepResult` recording the successor
state, the log entries appended by the call, whether
`performEmergencyCleanup` ran, the `restart-state.json` document
written by `saveRestartState`, and the scheduled `process.exit` call
as a pair of exit code and delay in milliseconds.
-/

namespace AutoRestarter

/-- One structured log entry, identified by the `type` tag passed to
`logEvent` together with the payload fields the claims talk about. -/
inductive LogEvent where
  | critical_error (typ msg code : String) (restartCount : Nat)
  | warning (msg : String)
  | high_memory (heapUsed heapTotal rss external : Nat)
  | restart_blocked (reason : String)
  | restart_limit (maxRestarts : Nat)
  | restart_initiated (reason : String) (count maxRestarts : Nat)
  | restart_initiated_render
  | force_restart (reason : String)
  | graceful_shutdown (signal : String)
  | state_loaded (previousRestarts : Nat)
  | manual_restart (reason : String)
  | auto_restart_stopped
deriving Repr, DecidableEq

/-- The fields the `AutoRestarter` constructor initializes and the
methods read or write.  The log/pid file paths and the child-process
handle carry no restart bookkeeping and are left out. -/
structure State where
  restartCount : Nat
  maxRestarts : Nat
  restartCooldown : Nat
  lastRestart : Nat
  criticalErrors : List String
  isShuttingDown : Bool
deriving Repr, DecidableEq

/-- The part of the `restart-state.json` document that `loadRestartState`
reads back: `restartCount`, `lastRestart`, and the calendar day of the
saved `timestamp` (compared through `toDateString()`).  The `pid`,
`memoryUsage` and `uptime` fields are write-only diagnostics. -/
structure RestartStateFile where
  restartCount : Nat
  lastRestart : Nat
  timestampDay : Nat
deriving Repr, DecidableEq

/-- Observable outcome of one supervisor method call. -/
structure StepResult where
  state : State
  log : List LogEvent
  cleanupRan : Bool
  savedState : Option RestartStateFile
  exitCall : Option (Nat × Nat)
deriving Repr, DecidableEq

/-- A call that returns without doing anything observable. -/
def noop (s : State) : StepResult :=
  { state := s, log := [], cleanupRan := false, savedState := none, exitCall := none }

/-- The `criticalErrors` array from the constructor (lines 74-81). -/
def criticalErrorsInit : List String :=
  ["ENOSPC", "ENOMEM", "EMFILE", "ECONNRESET",
   "ERR_UNHANDLED_ERROR", "UnhandledPromiseRejectionWarning"]

/-- State produced by `new AutoRestarter()` (constructor, lines 69-89). -/
def initState : State :=
  { restartCount := 0
    maxRestarts := 5
    restartCooldown := 30000
    lastRestart := 0
    criticalErrors := criticalErrorsInit
    isShuttingDown := false }

/-- The heap-used threshold (MB) above which `checkMemoryUsage` logs
`high_memory` (literal `512` at line 176). -/
def memoryWarnMB : Nat := 512

/-- The heap-used threshold (MB) above which `checkMemoryUsage` requests a
restart (literal `1024` at line 186). -/
def memoryCriticalMB : Nat := 1024

/-- The memory sampling period passed to `setInterval` (literal `60000`
at line 115). -/
def memorySampleIntervalMs : Nat := 60000

/-- JS `errorMessage.includes(criticalError)`: case-sensitive substring
test on the exact character sequences. -/
def strContains (hay pat : String) : Bool :=
  decide (pat.data <:+: hay.data)

/-- The classification at lines 150-152: some configured pattern is a
substring of the message, or the code equals the pattern exactly. -/
def needsRestart (s : State) (msg code : String) : Bool :=
  s.criticalErrors.any fun c => strContains msg c || code == c

/-- Document written by `saveRestartState` (lines 298-317) for a given
current state and current calendar day. -/
def saveRestartState (s : State) (today : Nat) : RestartStateFile :=
  { restartCount := s.restartCount
    lastRestart := s.lastRestart
    timestampDay := today }

/-- `gracefulShutdown(signal)` (lines 374-407): latch check, then set the
latch, log `graceful_shutdown`, best-effort pid-file removal / child kill
/ gc, and exit after 2000 ms with code 1 iff the cause is
`MAX_RESTARTS_REACHED`. -/
def gracefulShutdown (s : State) (signal : String) : StepResult :=
  if s.isShuttingDown then noop s
  else
    { state := { s with isShuttingDown := true }
      log := [LogEvent.graceful_shutdown signal]
      cleanupRan := false
      savedState := none
      exitCall := some (if signal == "MAX_RESTARTS_REACHED" then 1 else 0, 2000) }

/-- `initiateRestart(reason)` (lines 197-238): latch check, cooldown
check, limit check, then the mutation + `restart_initiated` log +
emergency cleanup + state save + `restartProcess` (which logs
`restart_initiated_render` and exits with code 0 after 2000 ms).
`now` is `Date.now()`, `today` the current calendar day. -/
def initiateRestart (s : State) (now : Nat) (reason : String) (today : Nat) : StepResult :=
  if s.isShuttingDown then noop s
  else if now - s.lastRestart < s.restartCooldown then
    { state := s
      log := [LogEvent.restart_blocked reason]
      cleanupRan := false
      savedState := none
      exitCall := none }
  else if s.maxRestarts ≤ s.restartCount then
    let g := gracefulShutdown s "MAX_RESTARTS_REACHED"
    { g with log := LogEvent.restart_limit s.maxRestarts :: g.log }
  else
    let s' : State :=
      { s with restartCount := s.restartCount + 1
               lastRestart := now
               isShuttingDown := true }
    { state := s'
      log := [LogEvent.restart_initiated reason s'.restartCount s.maxRestarts,
              LogEvent.restart_initiated_render]
      cleanupRan := true
      savedState := some (saveRestartState s' today)
      exitCall := some (0, 2000) }

/-- `forceRestart(reason)` (lines 243-256): best-effort log and state
save, then exit with code 1 after 1000 ms; no field of the supervisor is
mutated. -/
def forceRestart (s : State) (reason : String) (today : Nat) : StepResult :=
  { state := s
    log := [LogEvent.force_restart reason]
    cleanupRan := false
    savedState := some (saveRestartState s today)
    exitCall := some (1, 1000) }

/-- Possible outcomes of the two file-system calls inside `logEvent`
(`fs.mkdir` and `fs.appendFile`, lines 416 and 428). -/
inductive LogWriteOutcome where
  | ok
  | mkdirFails
  | appendFails
deriving Repr, DecidableEq

/-- The recursive `fs.mkdir(logsDir, ...)` step. -/
def logDirCreate : LogWriteOutcome → Except String Unit
  | LogWriteOutcome.mkdirFails => Except.error "EACCES: mkdir"
  | _ => Except.ok ()

/-- The `fs.appendFile(this.logFile, logLine)` step; on success the
entry is appended. -/
def logAppend (w : LogWriteOutcome) (e : LogEvent) : Except String (List LogEvent) :=
  match w with
  | LogWriteOutcome.appendFails => Except.error "EIO: appendFile"
  | _ => Except.ok [e]

/-- `logEvent(type, data)` (lines 412-433): the mkdir + append body runs
inside a try/catch whose handler only prints to the console, so a failing step is
swallowed (nothing appended) and the call still returns normally.  The
`Except` result type records whether an error escapes to the caller. -/
def logEvent (w : LogWriteOutcome) (e : LogEvent) : Except String (List LogEvent) :=
  match (logDirCreate w).bind (fun _ => logAppend w e) with
  | Except.error _ => Except.ok []
  | Except.ok l => Except.ok l

/-- `handleCriticalError(type, error)` (lines 134-164): log a
`critical_error` entry, classify with `needsRestart`, and either call
`initiateRestart` or only report on the console.  The `catch (logError)`
branch (lines 159-163) runs `forceRestart` and is reached only if the
`try` body throws. -/
def handleCriticalError (s : State) (typ msg code : String) (now today : Nat)
    (w : LogWriteOutcome) : StepResult :=
  match logEvent w (LogEvent.critical_error typ msg code s.restartCount) with
  | Except.error _ => forceRestart s "Falha no sistema de logs" today
  | Except.ok l =>
    if needsRestart s msg code then
      let r := initiateRestart s now ("Erro crítico detectado: " ++ code ++ " - " ++ msg) today
      { r with log := l ++ r.log }
    else
      { state := s, log := l, cleanupRan := false, savedState := none, exitCall := none }

/-- `checkMemoryUsage()` (lines 169-192) with the sampled megabyte
readings as inputs: log `high_memory` above `memoryWarnMB`, and request a
restart above `memoryCriticalMB`. -/
def checkMemoryUsage (s : State) (heapUsedMB heapTotalMB rssMB externalMB : Nat)
    (now today : Nat) : StepResult :=
  let warnLog :=
    if memoryWarnMB < heapUsedMB then
      [LogEvent.high_memory heapUsedMB heapTotalMB rssMB externalMB]
    else []
  if memoryCriticalMB < heapUsedMB then
    let r := initiateRestart s now ("Uso crítico de memória: " ++ toString heapUsedMB ++ "MB") today
    { r with log := warnLog ++ r.log }
  else
    { state := s, log := warnLog, cleanupRan := false, savedState := none, exitCall := none }

/-- Result of reading and JSON-parsing the `restart-state.json` file in
`loadRestartState`: success, or one of the failure conditions the
surrounding `try`/`catch` absorbs. -/
inductive ReadOutcome where
  | ok (f : RestartStateFile)
  | missing
  | unreadable
  | malformed
deriving Repr, DecidableEq

/-- The `fs.readFile` + `JSON.parse` prefix of `loadRestartState`. -/
def readStateFile : ReadOutcome → Except String RestartStateFile
  | ReadOutcome.ok f => Except.ok f
  | ReadOutcome.missing => Except.error "ENOENT"
  | ReadOutcome.unreadable => Except.error "EACCES"
  | ReadOutcome.malformed => Except.error "SyntaxError: JSON.parse"

def isOkExcept : Except ε α → Bool
  | Except.ok _ => true
  | Except.error _ => false

/-- JS `x || 0` on a number: the fallback is taken exactly when `x` is
falsy, i.e. `0` for a natural number. -/
def jsOrZero (x : Nat) : Nat := if x == 0 then 0 else x

/-- `loadRestartState()` (lines 322-350): read and parse the state file;
same calendar day restores `restartCount`/`lastRestart` and logs
`state_loaded`, a different day or any read/parse failure resets both
counters to zero.  No failure escapes the `catch`. -/
def loadRestartState (s : State) (o : ReadOutcome) (today : Nat) :
    State × List LogEvent :=
  match readStateFile o with
  | Except.error _ => ({ s with restartCount := 0, lastRestart := 0 }, [])
  | Except.ok f =>
    if f.timestampDay == today then
      ({ s with restartCount := jsOrZero f.restartCount
                lastRestart := jsOrZero f.lastRestart },
       [LogEvent.state_loaded (jsOrZero f.restartCount)])
    else
      ({ s with restartCount := 0, lastRestart := 0 }, [])

/-- `stop()` (lines 462-465): latch the shutdown flag and log. -/
def stopMethod (s : State) : StepResult :=
  { state := { s with isShuttingDown := true }
    log := [LogEvent.auto_restart_stopped]
    cleanupRan := false
    savedState := none
    exitCall := none }

/-- `manualRestart(reason)` (lines 485-488): log `manual_restart` then
delegate to `initiateRestart`. -/
def manualRestart (s : State) (reason : String) (now today : Nat) : StepResult :=
  let r := initiateRestart s now reason today
  { r with log := LogEvent.manual_restart reason :: r.log }

/-- A primitive file-system operation, for describing what
`saveRestartState` does to the files on disk. -/
inductive FsOp where
  | writeFileOp (path content : String)
  | renameOp (src dst : String)
deriving Repr, DecidableEq

/-- The fixed path of the persisted restart state
(`path.join` of the module directory with `restart-state.json`). -/
def stateFilePath : String := "restart-state.json"

/-- The fixed pid-file path (`this.pidFile`). -/
def pidFilePath : String := "nazuna.pid"

/-- The file-system operations performed by `saveRestartState`
(lines 309-313), given the serialized state document and the pid text:
two direct `fs.writeFile` calls, first to the state path, then to the
pid path. -/
def saveRestartStateOps (stateJson pidStr : String) : List FsOp :=
  [FsOp.writeFileOp stateFilePath stateJson,
   FsOp.writeFileOp pidFilePath pidStr]

def directWriteTo (op : FsOp) (target : String) : Bool :=
  match op with
  | FsOp.writeFileOp p _ => p == target
  | FsOp.renameOp _ _ => false

def hasDirectWriteTo (ops : List FsOp) (target : String) : Bool :=
  ops.any fun op => directWriteTo op target

/-- Modelled from the spec: the crash-safety discipline §4.4 prescribes
for `save` — the serialized document reaches the state path only through
an atomic rename, never through a direct in-place write, so that an
interrupted save cannot leave a partial document at the state path. -/
def crashSafeSave (ops : List FsOp) (target : String) : Prop :=
  hasDirectWriteTo ops target = false

/-- `fs.writeFile` truncates and then writes; interrupting it after `k`
characters leaves the target file holding the first `k` characters of
the new content. -/
def interruptedWrite (newContent : String) (k : Nat) : String :=
  String.mk (newContent.data.take k)

/-- An external trigger funneled into the supervisor: a restart request
(uncaught error, memory breach, manual command) or a shutdown request
(signal handler). -/
inductive Request where
  | restartReq (now : Nat) (reason : String) (today : Nat)
  | shutdownReq (signal : String)
deriving Repr, DecidableEq

/-- Dispatch one trigger to its entry point. -/
def applyRequest (s : State) : Request → StepResult
  | Request.restartReq now reason today => initiateRestart s now reason today
  | Request.shutdownReq signal => gracefulShutdown s signal

/-- Run a sequence of triggers, accumulating the appended log entries. -/
def runRequests (s : State) : List Request → State × List LogEvent
  | [] => (s, [])
  | r :: rs =>
    let st := applyRequest s r
    let rest := runRequests st.state rs
    (rest.1, st.log ++ rest.2)

/-- Supervisor states reachable in actual executions: the constructed
state, states after any method call, and states of a relaunched process
that loads either a file produced by `saveRestartState` in an earlier
reachable incarnation or a missing/unreadable/malformed file. -/
inductive Reachable : State → Prop where
  | init : Reachable initState
  | restartStep (s : State) (now : Nat) (reason : String) (today : Nat) :
      Reachable s → Reachable (initiateRestart s now reason today).state
  | shutdownStep (s : State) (signal : String) :
      Reachable s → Reachable (gracefulShutdown s signal).state
  | criticalStep (s : State) (typ msg code : String) (now today : Nat)
      (w : LogWriteOutcome) :
      Reachable s → Reachable (handleCriticalError s typ msg code now today w).state
  | memoryStep (s : State) (hu ht rss ext now today : Nat) :
      Reachable s → Reachable (checkMemoryUsage s hu ht rss ext now today).state
  | forceStep (s : State) (reason : String) (today : Nat) :
      Reachable s → Reachable (forceRestart s reason today).state
  | stopStep (s : State) :
      Reachable s → Reachable (stopMethod s).state
  | manualStep (s : State) (reason : String) (now today : Nat) :
      Reachable s → Reachable (manualRestart s reason now today).state
  | relaunchSaved (s : State) (d dLoad : Nat) :
      Reachable s →
      Reachable (loadRestartState initState
        (ReadOutcome.ok (saveRestartState s d)) dLoad).1
  | relaunchMissing (d : Nat) :
      Reachable (loadRestartState initState ReadOutcome.missing d).1
  | relaunchUnreadable (d : Nat) :
      Reachable (loadRestartState initState ReadOutcome.unreadable d).1
  | relaunchMalformed (d : Nat) :
      Reachable (loadRestartState initState ReadOutcome.malformed d).1

/-- The inductive invariant carried through every supervisor operation:
the limit configuration stays at its constructed value and the counter
stays within it. -/
def SupervisorInv (s : State) : Prop :=
  s.maxRestarts = 5 ∧ s.restartCount ≤ 5

/-- Recognizes a `force_restart` log entry, the entry written only by
the `forceRestart` fallback. -/
def isForceRestartEvent : LogEvent → Bool
  | LogEvent.force_restart _ => true
  | _ => false

/-- The construction-time policy configuration of a supervisor state. -/
def configOf (s : State) : Nat × Nat × List String :=
  (s.maxRestarts, s.restartCooldown, s.criticalErrors)

/-! ### Helper lemmas -/

lemma jsOrZero_eq (x : Nat) : jsOrZero x = x := by
  by_cases h : x = 0 <;> simp [jsOrZero, h]

lemma initiateRestart_latched (s : State) (now : Nat) (reason : String) (today : Nat)
    (h : s.isShuttingDown = true) : initiateRestart s now reason today = noop s := by
  simp [initiateRestart, h]

lemma gracefulShutdown_latched (s : State) (signal : String)
    (h : s.isShuttingDown = true) : gracefulShutdown s signal = noop s := by
  simp [gracefulShutdown, h]

lemma inv_initiateRestart {s : State} (now : Nat) (reason : String) (today : Nat)
    (h : SupervisorInv s) : SupervisorInv (initiateRestart s now reason today).state := by
  unfold SupervisorInv at *
  unfold initiateRestart gracefulShutdown noop
  split_ifs
  all_goals simp_all
  all_goals omega

lemma inv_gracefulShutdown {s : State} (signal : String)
    (h : SupervisorInv s) : SupervisorInv (gracefulShutdown s signal).state := by
  unfold SupervisorInv at *
  unfold gracefulShutdown noop
  split_ifs <;> simp_all

lemma inv_handleCriticalError {s : State} (typ msg code : String) (now today : Nat)
    (w : LogWriteOutcome)
    (h : SupervisorInv s) : SupervisorInv (handleCriticalError s typ msg code now today w).state := by
  unfold handleCriticalError logEvent logDirCreate logAppend forceRestart
  cases w
  all_goals
    simp only [Except.bind]
    split_ifs with hn <;>
      first
        | exact inv_initiateRestart now _ today h
        | exact h

lemma inv_checkMemoryUsage {s : State} (hu ht rss ext now today : Nat)
    (h : SupervisorInv s) : SupervisorInv (checkMemoryUsage s hu ht rss ext now today).state := by
  unfold checkMemoryUsage
  split_ifs with h1 h2 h3
  · exact inv_initiateRestart now _ today h
  · exact h
  · exact inv_initiateRestart now _ today h
  · exact h

lemma inv_loadSaved {s : State} (d dLoad : Nat) (h : SupervisorInv s) :
    SupervisorInv (loadRestartState initState
      (ReadOutcome.ok (saveRestartState s d)) dLoad).1 := by
  unfold SupervisorInv at *
  simp only [loadRestartState, readStateFile, saveRestartState]
  split_ifs
  all_goals simp [initState, jsOrZero_eq]
  all_goals omega

/-- Every reachable state satisfies the inductive invariant. -/
lemma reachable_inv (s : State) (h : Reachable s) : SupervisorInv s := by
  induction h with
  | init => exact ⟨rfl, by decide⟩
  | restartStep s now reason today _ ih => exact inv_initiateRestart now reason today ih
  | shutdownStep s signal _ ih => exact inv_gracefulShutdown signal ih
  | criticalStep s typ msg code now today w _ ih =>
      exact inv_handleCriticalError typ msg code now today w ih
  | memoryStep s hu ht rss ext now today _ ih =>
      exact inv_checkMemoryUsage hu ht rss ext now today ih
  | forceStep s reason today _ ih => exact ih
  | stopStep s _ ih => exact ih
  | manualStep s reason now today _ ih => exact inv_initiateRestart now reason today ih
  | relaunchSaved s d dLoad _ ih => exact inv_loadSaved d dLoad ih
  | relaunchMissing d => exact ⟨rfl, by simp [loadRestartState, readStateFile, initState]⟩
  | relaunchUnreadable d => exact ⟨rfl, by simp [loadRestartState, readStateFile, initState]⟩
  | relaunchMalformed d => exact ⟨rfl, by simp [loadRestartState, readStateFile, initState]⟩

lemma initiateRestart_no_force (s : State) (now : Nat) (reason : String) (today : Nat) :
    (initiateRestart s now reason today).log.any isForceRestartEvent = false := by
  unfold initiateRestart gracefulShutdown noop
  split_ifs <;> simp [isForceRestartEvent]

lemma config_initiateRestart (s : State) (now : Nat) (reason : String) (today : Nat) :
    configOf (initiateRestart s now reason today).state = configOf s := by
  unfold initiateRestart gracefulShutdown noop configOf
  split_ifs <;> rfl

lemma config_gracefulShutdown (s : State) (signal : String) :
    configOf (gracefulShutdown s signal).state = configOf s := by
  unfold gracefulShutdown noop configOf
  split_ifs <;> rfl

lemma config_handleCriticalError (s : State) (typ msg code : String) (now today : Nat)
    (w : LogWriteOutcome) :
    configOf (handleCriticalError s typ msg code now today w).state = configOf s := by
  unfold handleCriticalError logEvent logDirCreate logAppend forceRestart
  cases w
  all_goals
    simp only [Except.bind]
    split_ifs <;>
      first
        | exact config_initiateRestart s now _ today
        | rfl

lemma config_checkMemoryUsage (s : State) (hu ht rss ext now today : Nat) :
    configOf (checkMemoryUsage s hu ht rss ext now today).state = configOf s := by
  unfold checkMemoryUsage
  split_ifs <;>
    first
      | exact config_initiateRestart s now _ today
      | rfl

lemma config_loadRestartState (s : State) (o : ReadOutcome) (today : Nat) :
    configOf (loadRestartState s o today).1 = configOf s := by
  unfold loadRestartState readStateFile configOf
  cases o
  all_goals
    first
      | rfl
      | (simp only []; split_ifs <;> rfl)

/-! ### Claim theorems -/

/-- C1: in every reachable supervisor state `restartCount` never exceeds
`maxRestarts`, and a restart request that reaches the limit check with
`restartCount ≥ maxRestarts` leaves the counter unchanged, logs a
`restart_limit` event, and invokes `gracefulShutdown("MAX_RESTARTS_REACHED")`,
which schedules process termination with exit code 1. -/
theorem restart_limit_invariant :
    (∀ s : State, Reachable s → s.restartCount ≤ s.maxRestarts) ∧
    (∀ (s : State) (now : Nat) (reason : String) (today : Nat),
      s.isShuttingDown = false →
      s.restartCooldown ≤ now - s.lastRestart →
      s.maxRestarts ≤ s.restartCount →
      initiateRestart s now reason today =
        { state := { s with isShuttingDown := true }
          log := [LogEvent.restart_limit s.maxRestarts,
                  LogEvent.graceful_shutdown "MAX_RESTARTS_REACHED"]
          cleanupRan := false
          savedState := none
          exitCall := some (1, 2000) }) := by
  constructor
  · intro s hs
    have h1 := (reachable_inv s hs).1
    have h2 := (reachable_inv s hs).2
    omega
  · intro s now reason today h1 h2 h3
    unfold initiateRestart gracefulShutdown
    rw [if_neg (by simp [h1]), if_neg (by omega), if_pos h3, if_neg (by simp [h1])]
    simp

/-- Witness for `restart_limit_invariant` at the constructed state and at
a concrete state holding five recorded restarts. -/
theorem restart_limit_invariant_witness :
    initState.restartCount ≤ initState.maxRestarts ∧
    initiateRestart { initState with restartCount := 5 } 60000 "Erro crítico" 0 =
      { state := { initState with restartCount := 5, isShuttingDown := true }
        log := [LogEvent.restart_limit 5,
                LogEvent.graceful_shutdown "MAX_RESTARTS_REACHED"]
        cleanupRan := false
        savedState := none
        exitCall := some (1, 2000) } :=
  ⟨restart_limit_invariant.1 initState Reachable.init,
   restart_limit_invariant.2 { initState with restartCount := 5 } 60000 "Erro crítico" 0
     rfl (by decide) (by decide)⟩

/-- C2: of two restart requests issued less than `restartCooldown` apart,
each arriving with the latch clear and below the limit, only the first
mutates the counters; the second (arriving in the relaunched process
that reloaded the saved state the same day) logs `restart_blocked` and
leaves `restartCount` and `lastRestart` exactly as they were. -/
theorem cooldown_blocks_second_request :
    ∀ (s : State) (t1 t2 : Nat) (r1 r2 : String) (d : Nat),
      s.isShuttingDown = false →
      s.restartCooldown = 30000 →
      s.restartCount < s.maxRestarts →
      s.lastRestart + s.restartCooldown ≤ t1 →
      t1 ≤ t2 →
      t2 - t1 < s.restartCooldown →
      (initiateRestart s t1 r1 d).state.restartCount = s.restartCount + 1 ∧
      (initiateRestart s t1 r1 d).state.lastRestart = t1 ∧
      initiateRestart
          ((loadRestartState initState
            (ReadOutcome.ok (saveRestartState (initiateRestart s t1 r1 d).state d)) d).1)
          t2 r2 d =
        { state := (loadRestartState initState
            (ReadOutcome.ok (saveRestartState (initiateRestart s t1 r1 d).state d)) d).1
          log := [LogEvent.restart_blocked r2]
          cleanupRan := false
          savedState := none
          exitCall := none } := by
  intro s t1 t2 r1 r2 d h1 hc h2 h3 h4 h5
  have hfirst : initiateRestart s t1 r1 d =
      { state := { s with restartCount := s.restartCount + 1, lastRestart := t1, isShuttingDown := true }
        log := [LogEvent.restart_initiated r1 (s.restartCount + 1) s.maxRestarts,
                LogEvent.restart_initiated_render]
        cleanupRan := true
        savedState := some ⟨s.restartCount + 1, t1, d⟩
        exitCall := some (0, 2000) } := by
    unfold initiateRestart
    rw [if_neg (by simp [h1]), if_neg (by omega), if_neg (by omega)]
    rfl
  have hrel : (loadRestartState initState
      (ReadOutcome.ok (saveRestartState (initiateRestart s t1 r1 d).state d)) d).1 =
      { initState with restartCount := s.restartCount + 1, lastRestart := t1 } := by
    rw [hfirst]
    simp [loadRestartState, readStateFile, saveRestartState, jsOrZero_eq, initState]
  refine ⟨by rw [hfirst], by rw [hfirst], ?_⟩
  rw [hrel]
  unfold initiateRestart
  rw [if_neg (by simp [initState]), if_pos (by simp [initState]; omega)]

/-- Witness for `cooldown_blocks_second_request`: a first successful
request at `t = 30000` and a second one `10000` ms later. -/
theorem cooldown_blocks_second_request_witness :
    (initiateRestart initState 30000 "memoria" 7).state.restartCount = 1 :=
  (cooldown_blocks_second_request initState 30000 40000 "memoria" "sinal" 7
      rfl rfl (by decide) (by decide) (by decide) (by decide)).1

/-- C3: once `isShuttingDown` is latched, any sequence of further calls
to the restart-request entry point or to `gracefulShutdown` leaves the
state untouched and appends no log entry at all (in particular none of
type `restart_initiated` or `graceful_shutdown`). -/
theorem shutdown_latch_noop :
    ∀ (s : State) (rs : List Request),
      s.isShuttingDown = true → runRequests s rs = (s, []) := by
  intro s rs h
  induction rs with
  | nil => rfl
  | cons r rs ih =>
    cases r with
    | restartReq now reason today =>
      simp [runRequests, applyRequest, initiateRestart_latched _ _ _ _ h, noop, ih]
    | shutdownReq signal =>
      simp [runRequests, applyRequest, gracefulShutdown_latched _ _ h, noop, ih]

/-- Witness for `shutdown_latch_noop` on a latched state and a concrete
request sequence. -/
theorem shutdown_latch_noop_witness :
    runRequests { initState with isShuttingDown := true }
      [Request.restartReq 60000 "erro" 0, Request.shutdownReq "SIGTERM"] =
      ({ initState with isShuttingDown := true }, []) :=
  shutdown_latch_noop { initState with isShuttingDown := true }
    [Request.restartReq 60000 "erro" 0, Request.shutdownReq "SIGTERM"] rfl

/-- C4: a restart request passing all three guards increments
`restartCount`, sets `lastRestart` to `now`, latches `isShuttingDown`,
logs `restart_initiated` with reason/count/limit (followed by the
`restartProcess` entry), runs emergency cleanup, saves the state file,
and schedules `process.exit(0)` after 2000 ms; in particular one
critical `ENOSPC` error on the freshly constructed supervisor takes
`restartCount` from 0 to 1 and exits with code 0. -/
theorem restart_success_path :
    (∀ (s : State) (now : Nat) (reason : String) (today : Nat),
      s.isShuttingDown = false →
      s.lastRestart + s.restartCooldown ≤ now →
      s.restartCount < s.maxRestarts →
      initiateRestart s now reason today =
        { state := { s with restartCount := s.restartCount + 1, lastRestart := now, isShuttingDown := true }
          log := [LogEvent.restart_initiated reason (s.restartCount + 1) s.maxRestarts,
                  LogEvent.restart_initiated_render]
          cleanupRan := true
          savedState := some ⟨s.restartCount + 1, now, today⟩
          exitCall := some (0, 2000) }) ∧
    ((handleCriticalError initState "uncaughtException" "no space left on device"
        "ENOSPC" 30000 0 LogWriteOutcome.ok).state.restartCount = 1 ∧
     (handleCriticalError initState "uncaughtException" "no space left on device"
        "ENOSPC" 30000 0 LogWriteOutcome.ok).exitCall = some (0, 2000) ∧
     (handleCriticalError initState "uncaughtException" "no space left on device"
        "ENOSPC" 30000 0 LogWriteOutcome.ok).log =
       [LogEvent.critical_error "uncaughtException" "no space left on device" "ENOSPC" 0,
        LogEvent.restart_initiated
          "Erro crítico detectado: ENOSPC - no space left on device" 1 5,
        LogEvent.restart_initiated_render]) := by
  constructor
  · intro s now reason today h1 h2 h3
    unfold initiateRestart
    rw [if_neg (by simp [h1]), if_neg (by omega), if_neg (by omega)]
    rfl
  · refine ⟨by decide, by decide, by decide⟩

/-- Witness for `restart_success_path` at the constructed state. -/
theorem restart_success_path_witness :
    initiateRestart initState 30000 "reinicio" 3 =
      { state := { initState with restartCount := 1, lastRestart := 30000, isShuttingDown := true }
        log := [LogEvent.restart_initiated "reinicio" 1 5,
                LogEvent.restart_initiated_render]
        cleanupRan := true
        savedState := some ⟨1, 30000, 3⟩
        exitCall := some (0, 2000) } :=
  restart_success_path.1 initState 30000 "reinicio" 3 rfl (by decide) (by decide)

/-- C5: an observation is classified critical exactly when some
configured pattern occurs as a case-sensitive substring of the message
or the code equals that pattern; and a classification that decides
"not critical" leaves the supervisor state untouched. -/
theorem classification_pure_iff :
    ∀ (s : State) (msg code : String),
      (needsRestart s msg code = true ↔
        ∃ p ∈ s.criticalErrors, p.data <:+: msg.data ∨ code = p) ∧
      (∀ (typ : String) (now today : Nat),
        needsRestart s msg code = false →
        (handleCriticalError s typ msg code now today LogWriteOutcome.ok).state = s) := by
  intro s msg code
  constructor
  · unfold needsRestart strContains
    simp
  · intro typ now today h
    unfold handleCriticalError logEvent logDirCreate logAppend
    simp [Except.bind, h]

/-- Witness for `classification_pure_iff`: a non-matching error on the
constructed supervisor leaves the state unchanged. -/
theorem classification_pure_iff_witness :
    (handleCriticalError initState "uncaughtException" "erro comum" "EPIPE" 60000 0
        LogWriteOutcome.ok).state = initState :=
  (classification_pure_iff initState "erro comum" "EPIPE").2
    "uncaughtException" 60000 0 (by decide)

/-- C6: saving the restart state on day `d` and loading it the same day
restores `restartCount` and `lastRestart` identically, while loading the
same file on any later day yields both counters equal to zero. -/
theorem state_roundtrip_daily_reset :
    ∀ (s : State) (d dNext : Nat),
      ((loadRestartState initState
          (ReadOutcome.ok (saveRestartState s d)) d).1.restartCount = s.restartCount ∧
       (loadRestartState initState
          (ReadOutcome.ok (saveRestartState s d)) d).1.lastRestart = s.lastRestart) ∧
      (d < dNext →
       (loadRestartState initState
          (ReadOutcome.ok (saveRestartState s d)) dNext).1.restartCount = 0 ∧
       (loadRestartState initState
          (ReadOutcome.ok (saveRestartState s d)) dNext).1.lastRestart = 0) := by
  intro s d dNext
  constructor
  · simp [loadRestartState, readStateFile, saveRestartState, jsOrZero_eq]
  · intro hlt
    have hne : (d == dNext) = false := by
      simp only [beq_eq_false_iff_ne, ne_eq]
      omega
    simp [loadRestartState, readStateFile, saveRestartState, hne]

/-- Witness for `state_roundtrip_daily_reset`: a state with three
recorded restarts saved on day 10 and reloaded on day 11. -/
theorem state_roundtrip_daily_reset_witness :
    (loadRestartState initState
      (ReadOutcome.ok (saveRestartState
        { initState with restartCount := 3, lastRestart := 12345 } 10)) 11).1.restartCount
      = 0 :=
  ((state_roundtrip_daily_reset
      { initState with restartCount := 3, lastRestart := 12345 } 10 11).2 (by decide)).1

/-- C7 counterexample: `saveRestartState` does not use a
temporary-path-plus-atomic-rename scheme; it writes the serialized
document directly to the state path, and interrupting that write after
one character leaves content that is neither the old complete document
(here `"A"`) nor the new one (`"BC"`). -/
theorem save_atomicity_counterexample :
    ¬ crashSafeSave (saveRestartStateOps "BC" "123") stateFilePath ∧
    interruptedWrite "BC" 1 ≠ "A" ∧ interruptedWrite "BC" 1 ≠ "BC" := by
  refine ⟨?_, by decide, by decide⟩
  unfold crashSafeSave
  decide

/-- C7 (amended): the state-save operation performs exactly two direct
`writeFile` operations — the serialized state to the fixed state path,
then the pid to the pid file — and no rename, so the state path receives
an in-place, non-atomic write. -/
theorem save_direct_write_no_rename :
    ∀ (stateJson pidStr : String),
      saveRestartStateOps stateJson pidStr =
        [FsOp.writeFileOp stateFilePath stateJson,
         FsOp.writeFileOp pidFilePath pidStr] ∧
      hasDirectWriteTo (saveRestartStateOps stateJson pidStr) stateFilePath = true := by
  intro j p
  refine ⟨rfl, ?_⟩
  simp [saveRestartStateOps, hasDirectWriteTo, directWriteTo]

/-- C8: every failing on-disk condition of the state file — missing,
unreadable, or malformed — makes `loadRestartState` return normally with
both counters zeroed and no log entry, never propagating the failure. -/
theorem load_failure_zero_state :
    ∀ (s : State) (o : ReadOutcome) (today : Nat),
      isOkExcept (readStateFile o) = false →
      loadRestartState s o today =
        ({ s with restartCount := 0, lastRestart := 0 }, []) := by
  intro s o today h
  cases o with
  | ok f => simp [readStateFile, isOkExcept] at h
  | missing => rfl
  | unreadable => rfl
  | malformed => rfl

/-- Witness for `load_failure_zero_state` on a malformed state file. -/
theorem load_failure_zero_state_witness :
    loadRestartState { initState with restartCount := 4, lastRestart := 999 }
        ReadOutcome.malformed 20 =
      ({ initState with restartCount := 0, lastRestart := 0 }, []) :=
  load_failure_zero_state { initState with restartCount := 4, lastRestart := 999 }
    ReadOutcome.malformed 20 rfl

/-- C9: `logEvent` returns normally for every write outcome (failures of
mkdir/append are caught inside it), and consequently the logging-failure
fallback in `handleCriticalError` — the branch that would log
`force_restart` — is never reached through a failing log write. -/
theorem logEvent_never_raises :
    (∀ (w : LogWriteOutcome) (e : LogEvent), ∃ l, logEvent w e = Except.ok l) ∧
    (∀ (s : State) (typ msg code : String) (now today : Nat) (w : LogWriteOutcome),
      (handleCriticalError s typ msg code now today w).log.any isForceRestartEvent
        = false) := by
  constructor
  · intro w e
    cases w <;> exact ⟨_, rfl⟩
  · intro s typ msg code now today w
    unfold handleCriticalError logEvent logDirCreate logAppend
    cases w
    all_goals
      simp only [Except.bind]
      split_ifs <;>
        simp [List.any_append, initiateRestart_no_force, isForceRestartEvent]

/-- C10: the policy parameters are the fixed constants of the
constructor (`maxRestarts = 5`, `cooldown = 30000` ms, warn threshold
512 MB, critical threshold 1024 MB, sample interval 60000 ms, the
six-pattern critical list), and no supervisor operation mutates any of
them. -/
theorem config_constants_immutable :
    initState.maxRestarts = 5 ∧
    initState.restartCooldown = 30000 ∧
    memoryWarnMB = 512 ∧
    memoryCriticalMB = 1024 ∧
    memorySampleIntervalMs = 60000 ∧
    initState.criticalErrors =
      ["ENOSPC", "ENOMEM", "EMFILE", "ECONNRESET",
       "ERR_UNHANDLED_ERROR", "UnhandledPromiseRejectionWarning"] ∧
    initState.criticalErrors.length = 6 ∧
    (∀ (s : State) (now : Nat) (reason : String) (today : Nat),
      configOf (initiateRestart s now reason today).state = configOf s) ∧
    (∀ (s : State) (signal : String),
      configOf (gracefulShutdown s signal).state = configOf s) ∧
    (∀ (s : State) (typ msg code : String) (now today : Nat) (w : LogWriteOutcome),
      configOf (handleCriticalError s typ msg code now today w).state = configOf s) ∧
    (∀ (s : State) (hu ht rss ext now today : Nat),
      configOf (checkMemoryUsage s hu ht rss ext now today).state = configOf s) ∧
    (∀ (s : State) (reason : String) (today : Nat),
      configOf (forceRestart s reason today).state = configOf s) ∧
    (∀ s : State, configOf (stopMethod s).state = configOf s) ∧
    (∀ (s : State) (reason : String) (now today : Nat),
      configOf (manualRestart s reason now today).state = configOf s) ∧
    (∀ (s : State) (o : ReadOutcome) (today : Nat),
      configOf (loadRestartState s o today).1 = configOf s) :=
  ⟨rfl, rfl, rfl, rfl, rfl, rfl, rfl,
   config_initiateRestart,
   config_gracefulShutdown,
   config_handleCriticalError,
   config_checkMemoryUsage,
   fun _ _ _ => rfl,
   fun _ => rfl,
   fun s reason now today => config_initiateRestart s now reason today,
   config_loadRestartState⟩

end AutoRestarter
